import Mathlib

/-!
# TeleCompass — verification of the ingestion & retrieval pipeline

A shallow embedding of the core of the TeleCompass repository:

* `src/lib/pinecone.ts` — the Vector Index Gateway (`upsertVectors`,
  `queryVectors`, `deleteVectors`, `deletePolicyVectors`);
* `src/lib/rag.ts` — the Hybrid Retrieval Engine (`hybridSearch`,
  `ragQuery`) and fact extraction (`extractPolicyFacts`);
* the worker-queue module (given unnamed, `processQueue` / `resolveBuffer`).

Modelling conventions:

* JavaScript numbers appearing as similarity scores, vector components and
  confidences are modelled as rationals (`ℚ`); the claims under study are
  threshold / ordering / clamping facts, insensitive to binary rounding.
* Metadata values travelling through the vector index are dynamically typed
  (TypeScript types are erased at runtime and the index stores raw JSON), so
  they are modelled by the `JsValue` type below.  The numeric metadata used
  by this repository (page numbers, chunk indices) is integral, so
  `JsValue.num` carries an `Int`.
* JavaScript's `NaN` is modelled by `none` in an `Option Int`-valued number.
* `async` effects become explicit state passing; a thrown exception becomes
  the `error` case of `Except`.
* External collaborators (the embedding model, the generation model, the
  ANN scoring metric, `JSON.parse`) are abstract parameters of the
  environment record: the theorems hold for every behaviour of those
  collaborators.
* JavaScript's stable `Array.prototype.sort` is modelled by Mathlib's
  (stable) `List.insertionSort`.
-/

namespace TeleCompass

/-! ## Dynamically typed metadata values -/

/-- A runtime JSON-ish metadata value as stored by the vector index.
TypeScript's static types are erased, so every metadata field can hold a
string, a number, a boolean, or `null` — or be absent (`Option`). -/
inductive JsValue where
  | str (s : String)
  | num (n : Int)
  | bool (b : Bool)
  | null
  deriving Repr, DecidableEq

/-- JavaScript `a ?? d`: the nullish-coalescing operator, triggering on
`undefined` (absence, `none`) and `null`. -/
def nullCoalesce (v : Option JsValue) (d : JsValue) : JsValue :=
  match v with
  | none => d
  | some .null => d
  | some x => x

/-- JavaScript `String(v)` on the values of `JsValue` (integral numbers
render as their decimal form, matching JS). -/
def jsToString : JsValue → String
  | .str s => s
  | .num n => toString n
  | .bool b => if b then "true" else "false"
  | .null => "null"

/-- Decimal-digit string to `Nat`, `none` if any character is not a digit
or the string is empty. -/
def digitsToNat (cs : List Char) : Option Nat :=
  if cs = [] then none
  else
    cs.foldl
      (fun acc c =>
        match acc with
        | some a => if c.isDigit then some (a * 10 + (c.toNat - '0'.toNat)) else none
        | none => none)
      (some 0)

/-- Strip leading and trailing whitespace from a character list. -/
def trimChars (cs : List Char) : List Char :=
  ((cs.dropWhile Char.isWhitespace).reverse.dropWhile Char.isWhitespace).reverse

/-- JavaScript `Number(s)` for a string, restricted to the forms occurring
in this repository's metadata: the empty/whitespace string converts to `0`,
an optionally `-`-signed decimal-digit string converts to its value, and
anything else is `NaN` (`none`).  (Fractional, hexadecimal and exponent
literals, which JS would also parse, do not occur in the claims.) -/
def parseJsNumber (s : String) : Option Int :=
  let t := trimChars s.toList
  if t = [] then some 0
  else
    match t with
    | '-' :: rest => (digitsToNat rest).map (fun n => -(n : Int))
    | cs => (digitsToNat cs).map (fun n => (n : Int))

/-- JavaScript `Number(v)` on `JsValue`; `none` models `NaN`. -/
def jsNumber : JsValue → Option Int
  | .num n => some n
  | .bool b => some (if b then 1 else 0)
  | .null => some 0
  | .str s => parseJsNumber s

/-- JavaScript truthiness of a `JsValue` (`""`, `0`, `false` and `null`
are falsy). -/
def JsValue.truthy : JsValue → Bool
  | .str s => s ≠ ""
  | .num n => n ≠ 0
  | .bool b => b
  | .null => false

/-! ## Pinecone data model (`src/lib/pinecone.ts`) -/

/-- `VECTOR_DIMENSIONS` — vector dimensions for nomic-embed-text
(`src/lib/pinecone.ts`, line 30). -/
def VECTOR_DIMENSIONS : Nat := 768

/-- The metadata record as it dynamically reaches consumers: every field of
the declared `PineconeMetadata` interface possibly absent or mistyped
(`rag.ts` line 54 reads it back as `Partial<PineconeMetadata>`). -/
structure PartialMeta where
  policyId : Option JsValue := none
  stateId : Option JsValue := none
  stateName : Option JsValue := none
  policyTitle : Option JsValue := none
  pageNumber : Option JsValue := none
  chunkIndex : Option JsValue := none
  content : Option JsValue := none
  deriving Repr, DecidableEq

/-- A record held by the external Pinecone index: id, vector values and
metadata. -/
structure VectorEntry where
  id : String
  values : List ℚ
  metadata : PartialMeta
  deriving Repr, DecidableEq

/-- The state of the external Pinecone index.  Modelled from the spec: the
index itself is an external service (only its client wrapper is in
`src/lib/pinecone.ts`); the spec fixes its dimensionality contract
("Dimensionality is fixed (768) for the whole index; any upsert with a
mismatched vector length must fail loudly"). -/
structure VectorIndex where
  dimension : Nat
  entries : List VectorEntry
  deriving Repr, DecidableEq

/-- One query match returned by the index (`score?: number` and metadata
are optional in the Pinecone API). -/
structure PineconeMatch where
  id : String
  score : Option ℚ
  metadata : Option PartialMeta
  deriving Repr, DecidableEq

/-- A Pinecone metadata filter, in the two shapes this repository uses:
`{ policyId }` (equality, `pinecone.ts` line 144) and
`{ stateName: { $in: names } }` (`rag.ts` line 45). -/
inductive MetadataFilter where
  | policyIdEq (pid : String)
  | stateNameIn (names : List String)
  deriving Repr, DecidableEq

/-- Whether an entry's metadata satisfies a filter (Pinecone server-side
filtering: `$eq` on `policyId`, `$in` on `stateName`). -/
def matchesFilter : Option MetadataFilter → PartialMeta → Bool
  | none, _ => true
  | some (.policyIdEq pid), m => m.policyId = some (.str pid)
  | some (.stateNameIn names), m =>
    match m.stateName with
    | some (.str s) => names.contains s
    | _ => false

/-- Errors surfaced by the index / its wrapper. -/
inductive PineconeError where
  | dimensionMismatch
  deriving Repr, DecidableEq

/-- Descending order on matches by score (`?? 0`), the order in which the
index returns its top-K results. -/
def matchByScoreDesc (a b : PineconeMatch) : Prop :=
  b.score.getD 0 ≤ a.score.getD 0

instance : DecidableRel matchByScoreDesc := fun a b =>
  inferInstanceAs (Decidable (b.score.getD 0 ≤ a.score.getD 0))

instance : IsTotal PineconeMatch matchByScoreDesc :=
  ⟨fun a b => le_total (b.score.getD 0) (a.score.getD 0)⟩

instance : IsTrans PineconeMatch matchByScoreDesc :=
  ⟨fun _ _ _ hab hbc => le_trans hbc hab⟩

/-- The external index's query operation.  Modelled from the spec
(§4.2): "returns up to `topK` nearest entries by cosine similarity …
`metadataFilter` restricts candidates … *before* ranking".  The similarity
metric itself is the abstract parameter `score`. -/
def indexQuery (score : List ℚ → List ℚ → ℚ) (idx : VectorIndex)
    (vector : List ℚ) (topK : Nat) (includeMetadata : Bool)
    (filter : Option MetadataFilter) : List PineconeMatch :=
  (((idx.entries.filter (fun e => matchesFilter filter e.metadata)).map
      (fun e =>
        { id := e.id
          score := some (score vector e.values)
          metadata := if includeMetadata then some e.metadata else none })).insertionSort
    matchByScoreDesc).take topK

/-- The external index's upsert operation.  Modelled from the spec: an
upsert whose vector length differs from the index dimension is rejected
("must fail loudly rather than silently truncate/pad"); otherwise each
entry overwrites any existing entry with the same id. -/
def indexUpsert (idx : VectorIndex) (vectors : List VectorEntry) :
    Except PineconeError VectorIndex :=
  if vectors.all (fun v => v.values.length = idx.dimension) then
    .ok { idx with
          entries :=
            vectors.foldl
              (fun es v => es.filter (fun e => e.id ≠ v.id) ++ [v]) idx.entries }
  else
    .error .dimensionMismatch

/-- The external index's delete-by-ids operation: removes every entry whose
id occurs in the list. -/
def indexDeleteMany (idx : VectorIndex) (ids : List String) : VectorIndex :=
  { idx with entries := idx.entries.filter (fun e => ¬ ids.contains e.id) }

/-- `upsertVectors` (`src/lib/pinecone.ts` lines 84–99): forwards the
entries unchanged to the index's upsert, returns the upserted count, and
rethrows any index error to the caller. -/
def upsertVectors (idx : VectorIndex) (vectors : List VectorEntry) :
    Except PineconeError (VectorIndex × Nat) :=
  match indexUpsert idx vectors with
  | .ok idx' => .ok (idx', vectors.length)
  | .error e => .error e

/-- `queryVectors` (`src/lib/pinecone.ts` lines 102–120): queries the index
with `includeMetadata: true` and returns `result.matches || []`. -/
def queryVectors (score : List ℚ → List ℚ → ℚ) (idx : VectorIndex)
    (queryVector : List ℚ) (topK : Nat) (filter : Option MetadataFilter) :
    List PineconeMatch :=
  indexQuery score idx queryVector topK true filter

/-- `deleteVectors` (`src/lib/pinecone.ts` lines 123–132). -/
def deleteVectors (idx : VectorIndex) (vectorIds : List String) :
    VectorIndex × Nat :=
  (indexDeleteMany idx vectorIds, vectorIds.length)

/-- `deletePolicyVectors` (`src/lib/pinecone.ts` lines 135–162): enumerate
the policy's vector ids by a filter-only query with an all-zero vector of
length 768 and `topK: 10000` (`includeMetadata: false`), then delete the
enumerated ids. -/
def deletePolicyVectors (score : List ℚ → List ℚ → ℚ) (idx : VectorIndex)
    (policyId : String) : VectorIndex × Nat :=
  let dummyVector : List ℚ := List.replicate 768 0
  let queryResult :=
    indexQuery score idx dummyVector 10000 false (some (.policyIdEq policyId))
  if queryResult.length > 0 then
    let vectorIds := queryResult.map (fun m => m.id)
    (indexDeleteMany idx vectorIds, queryResult.length)
  else
    (idx, 0)

/-! ## JSON values (output of the generation model's fact extraction) -/

/-- A parsed JSON value, the possible output of `JSON.parse`. -/
inductive Json where
  | obj (fields : List (String × Json))
  | arr (elems : List Json)
  | str (s : String)
  | num (q : ℚ)
  | bool (b : Bool)
  | null
  deriving Repr, BEq

/-- JavaScript property access `v.k`: defined on objects, `undefined`
(`none`) otherwise.  (On `null`/`undefined` JavaScript would raise a
TypeError instead; that edge does not occur in any claim under study.) -/
def Json.get : Json → String → Option Json
  | .obj fields, k => fields.lookup k
  | _, _ => none

/-- JavaScript truthiness of a parsed JSON value (objects and arrays are
always truthy; `""`, `0`, `false`, `null` are falsy). -/
def Json.truthy : Json → Bool
  | .obj _ => true
  | .arr _ => true
  | .str s => s ≠ ""
  | .num q => q ≠ 0
  | .bool b => b
  | .null => false

/-! ## Relational store (Prisma models used by the core) -/

/-- A `State` row. -/
structure StateRow where
  id : String
  name : String
  deriving Repr, DecidableEq

/-- A `Policy` row (the fields the core reads/writes). -/
structure PolicyRow where
  id : String
  stateId : String
  title : String
  status : String
  deriving Repr, DecidableEq

/-- A `PolicyChunk` row. -/
structure ChunkRow where
  id : String
  policyId : String
  content : String
  pageNumber : Int
  chunkIndex : Int
  deriving Repr, DecidableEq

/-- A `PolicyFact` row as written by `extractPolicyFacts` (`rag.ts` lines
244–254).  The written values come from a dynamically typed parsed JSON
fact, so the fields are JSON values (schema-level validation of the
relational store is outside the embedded core). -/
structure FactRow where
  policyId : String
  stateId : String
  category : Option Json
  field : Option Json
  value : Option Json
  confidence : Json
  pageNumber : Option Json
  deriving Repr, BEq

/-- The relational store. -/
structure DB where
  states : List StateRow
  policies : List PolicyRow
  chunks : List ChunkRow
  facts : List FactRow
  deriving Repr, BEq

/-- `prisma.policy.findUnique({ where: { id } })`. -/
def DB.findPolicy (db : DB) (id : String) : Option PolicyRow :=
  db.policies.find? (fun p => p.id = id)

/-- Resolving a policy's `state` relation. -/
def DB.findState (db : DB) (id : String) : Option StateRow :=
  db.states.find? (fun s => s.id = id)

/-- `prisma.policyChunk` rows belonging to a policy (the `chunks` include). -/
def DB.policyChunks (db : DB) (policyId : String) : List ChunkRow :=
  db.chunks.filter (fun c => c.policyId = policyId)

/-! ## Hybrid Retrieval Engine (`src/lib/rag.ts`) -/

/-- The `SearchResult` interface (`rag.ts` lines 5–13).  `pageNumber` is a
JavaScript number, so possibly `NaN` (modelled by `none`). -/
structure SearchResult where
  chunkId : String
  content : String
  pageNumber : Option Int
  similarity : ℚ
  policyId : String
  stateName : String
  policyTitle : String
  deriving Repr, DecidableEq

/-- A citation of the `RAGResponse` interface (`rag.ts` lines 18–23). -/
structure Citation where
  content : String
  pageNumber : Option Int
  stateName : String
  policyTitle : String
  deriving Repr, DecidableEq

/-- The `RAGResponse` interface (`rag.ts` lines 15–25); `suggestedQueries`
is optional. -/
structure RAGResponse where
  answer : String
  confidence : ℚ
  citations : List Citation
  suggestedQueries : Option (List String) := none
  deriving Repr, DecidableEq

/-- A chat message passed to the generation collaborator (also the shape of
`ConversationHistoryMessage`, whose `role` is one of the strings "user" /
"assistant"). -/
structure ChatMessage where
  role : String
  content : String
  deriving Repr, DecidableEq

/-- Options passed to `generateChatCompletion`. -/
structure GenOptions where
  temperature : ℚ
  numPredict : Nat
  deriving Repr, DecidableEq

/-- The external collaborators of the retrieval/extraction path, as
abstract functions: `generateEmbedding`, the index's similarity metric,
`generateChatCompletion`, and the JavaScript builtin `JSON.parse`.  All
theorems below hold for every behaviour of these collaborators. -/
structure RagEnv where
  embed : String → List ℚ
  score : List ℚ → List ℚ → ℚ
  gen : List ChatMessage → GenOptions → String
  jsonParse : String → Except String Json

/-- `SIMILARITY_THRESHOLD` (`rag.ts` line 32). -/
def SIMILARITY_THRESHOLD : ℚ := mkRat 7 10

/-- `TOP_K_RESULTS` (`rag.ts` line 33). -/
def TOP_K_RESULTS : Nat := 5

/-- The metadata normalization `hybridSearch` applies to each candidate
surviving the similarity threshold (`rag.ts` lines 53–64): the `.map`
callback, reading the match's metadata as `Partial<PineconeMetadata>`. -/
def toSearchResult (m : PineconeMatch) : SearchResult :=
  let metadata := m.metadata.getD {}
  { chunkId := m.id
    content :=
      match metadata.content with
      | some (.str s) => s
      | v => jsToString (nullCoalesce v (.str ""))
    pageNumber :=
      match metadata.pageNumber with
      | some (.num n) => some n
      | v => jsNumber (nullCoalesce v (.num 1))
    similarity := m.score.getD 0
    policyId :=
      match metadata.policyId with
      | some (.str s) => s
      | v => jsToString (nullCoalesce v (.str ""))
    stateName :=
      match metadata.stateName with
      | some (.str s) => s
      | _ => "Unknown"
    policyTitle :=
      match metadata.policyTitle with
      | some (.str s) => s
      | _ => "Unknown Policy" }

/-- Descending order of search results by similarity — the comparator
`(a, b) => b.similarity - a.similarity` of `rag.ts` line 66. -/
def bySimilarityDesc (a b : SearchResult) : Prop :=
  b.similarity ≤ a.similarity

instance : DecidableRel bySimilarityDesc := fun a b =>
  inferInstanceAs (Decidable (b.similarity ≤ a.similarity))

instance : IsTotal SearchResult bySimilarityDesc :=
  ⟨fun a b => le_total b.similarity a.similarity⟩

instance : IsTrans SearchResult bySimilarityDesc :=
  ⟨fun _ _ _ hab hbc => le_trans hbc hab⟩

/-- The pipeline `hybridSearch` applies to the candidates returned by the
vector index (`rag.ts` lines 51–67): threshold filter, metadata
normalization, descending sort by similarity, truncation to `topK`. -/
def hybridSearchFrom (pineconeResults : List PineconeMatch) (topK : Nat) :
    List SearchResult :=
  ((((pineconeResults.filter
        (fun m => m.score.isSome && decide (m.score.getD 0 ≥ SIMILARITY_THRESHOLD))).map
      toSearchResult).insertionSort bySimilarityDesc).take topK)

/-- `hybridSearch` (`rag.ts` lines 35–74): embed the query, build the
optional state filter, over-fetch `topK * 2` candidates from the index,
then filter/normalize/sort/truncate. -/
def hybridSearch (env : RagEnv) (idx : VectorIndex) (query : String)
    (stateFilter : Option (List String)) (topK : Nat := TOP_K_RESULTS) :
    List SearchResult :=
  let queryEmbedding := env.embed query
  let filter := stateFilter.map (fun names => MetadataFilter.stateNameIn names)
  let pineconeResults := queryVectors env.score idx queryEmbedding (topK * 2) filter
  hybridSearchFrom pineconeResults topK

/-- `fullChunk?.content || result.content` (`rag.ts` lines 117 and 167):
hydrate a result's content from the relational rows, falling back to the
vector-store preview when hydration misses or hydrates an empty string
(JavaScript `||` is falsy-coalescing). -/
def hydratedContent (fullChunks : List ChunkRow) (result : SearchResult) : String :=
  match fullChunks.find? (fun c => c.id = result.chunkId) with
  | some c => if c.content = "" then result.content else c.content
  | none => result.content

/-- Render a JavaScript number into a template literal (`NaN` renders as
"NaN"). -/
def renderNumber : Option Int → String
  | some n => toString n
  | none => "NaN"

/-- The fixed system prompt of `ragQuery` (`rag.ts` lines 123–131). -/
def ragSystemPrompt : String :=
  "You are a telehealth policy expert assistant. Answer questions based ONLY on the provided context from state telehealth policy documents.\n\nRules:\n1. Only use information from the provided context\n2. Always cite sources using [number] notation\n3. If the context doesn\x27t contain enough information, say so clearly\n4. Be concise and specific\n5. For regulatory questions, quote exact requirements when possible\n6. If confidence is low, suggest alternative queries"

/-- The canned response returned when the search finds nothing
(`rag.ts` lines 85–96). -/
def noInformationResponse : RAGResponse :=
  { answer := "I couldn\x27t find relevant information to answer your question. Try rephrasing or asking about specific telehealth modalities, billing codes, or state requirements."
    confidence := 0
    citations := []
    suggestedQueries := some
      [ "What are the live video requirements?"
      , "Does this state allow store-and-forward?"
      , "What are the consent requirements?" ] }

/-- `ragQuery` (`rag.ts` lines 76–178).  The second component of the
result records whether the text-generation collaborator was invoked. -/
def ragQuery (env : RagEnv) (idx : VectorIndex) (db : DB) (query : String)
    (stateFilter : Option (List String)) (history : List ChatMessage) :
    RAGResponse × Bool :=
  let searchResults := hybridSearch env idx query stateFilter
  if searchResults.isEmpty then
    (noInformationResponse, false)
  else
    let chunkIds := searchResults.map (fun r => r.chunkId)
    let fullChunks := db.chunks.filter (fun c => chunkIds.contains c.id)
    let context :=
      String.intercalate "\n\n"
        (searchResults.enum.map (fun p =>
          "[" ++ toString (p.1 + 1) ++ "] From " ++ p.2.stateName ++ " (Page " ++
            renderNumber p.2.pageNumber ++ "):\n" ++ hydratedContent fullChunks p.2))
    let userPrompt :=
      "Context from policy documents:\n" ++ context ++ "\n\nQuestion: " ++ query ++
        "\n\nProvide a clear, cited answer. Use [1], [2], etc. to reference the context sources."
    let trimmedHistory :=
      (history.drop (history.length - 10)).map (fun m =>
        { role := m.role, content := m.content })
    let answer :=
      env.gen
        ([{ role := "system", content := ragSystemPrompt }] ++ trimmedHistory ++
          [{ role := "user", content := userPrompt }])
        { temperature := mkRat 3 10, numPredict := 512 }
    let avgSimilarity :=
      (searchResults.foldl (fun sum r => sum + r.similarity) 0) /
        (searchResults.length : ℚ)
    let confidence := min (avgSimilarity * (mkRat 6 5)) 1
    ({ answer := answer
       confidence := confidence
       citations :=
         searchResults.map (fun result =>
           { content := hydratedContent fullChunks result
             pageNumber := result.pageNumber
             stateName := result.stateName
             policyTitle := result.policyTitle })
       suggestedQueries := none }, true)

/-! ## Fact extraction (`src/lib/rag.ts` lines 180–261) -/

/-- The fixed fact-extraction system prompt (`rag.ts` lines 194–217);
literal braces of the JSON example are escaped. -/
def extractionSystemPrompt : String :=
  "You are a telehealth policy extraction expert. Extract structured facts from state telehealth policy documents.\n\nExtract the following categories:\n1. Modalities: live_video, store_and_forward, rpm, audio_only\n2. Consent: requirements and specifics\n3. In-person requirements: initial visit rules\n4. Provider eligibility: who can provide telehealth\n5. Site eligibility: originating/distant site rules\n6. Billing: facility fees, modifiers (GT, FQ, 95), reimbursement parity\n7. Documentation: special requirements (e.g., BMI recording)\n8. Prescribing: controlled substances, restrictions\n\nReturn JSON format:\n\x7b\n  \"facts\": [\n    \x7b\n      \"category\": \"modality\",\n      \"field\": \"live_video\",\n      \"value\": \"Allowed with no restrictions\",\n      \"confidence\": 0.95,\n      \"page\": 3\n    \x7d\n  ]\n\x7d"

/-- The span matched by the regular expression over raw model output that
looks for a brace-delimited JSON span (`rag.ts` line 233): greedy, so the
match runs from the first opening brace through the last closing brace,
and exists iff some closing brace follows the first opening brace. -/
def braceSpan (s : String) : Option String :=
  let cs := s.toList
  match cs.findIdx? (fun c => c = '{'), cs.reverse.findIdx? (fun c => c = '}') with
  | some i, some jr =>
    let j := cs.length - 1 - jr
    if i < j then some (String.mk ((cs.drop i).take (j - i + 1))) else none
  | _, _ => none

/-- Building one `PolicyFact` row from a parsed fact (`rag.ts` lines
244–254): dynamically typed field reads; `fact.confidence || 0.5` defaults
every falsy confidence to 0.5. -/
def factToRow (policyId stateId : String) (fact : Json) : FactRow :=
  { policyId := policyId
    stateId := stateId
    category := fact.get "category"
    field := fact.get "field"
    value := fact.get "value"
    confidence :=
      match fact.get "confidence" with
      | some v => if v.truthy then v else .num (mkRat 1 2)
      | none => .num (mkRat 1 2)
    pageNumber := fact.get "page" }

/-- The raw output of the fact-extraction generation call (`rag.ts` lines
219–228): system prompt plus the user turn embedding the state name and
the policy's chunk text concatenated in store order and truncated to
12000 characters. -/
def extractionRawOutput (env : RagEnv) (db : DB) (state : StateRow)
    (policyId : String) : String :=
  let fullText :=
    String.intercalate "\n" ((db.policyChunks policyId).map (fun c => c.content))
  env.gen
    [ { role := "system", content := extractionSystemPrompt }
    , { role := "user"
      , content := "Extract facts from this " ++ state.name ++
          " policy:\n\n" ++ fullText.take 12000 } ]
    { temperature := mkRat 1 10, numPredict := 1024 }

/-- `extractPolicyFacts` (`rag.ts` lines 180–261).  The outer catch
rewraps any thrown error as "Failed to extract policy facts"; the inner
try around `JSON.parse` swallows parse failures (the result object stays
empty and zero facts are stored). -/
def extractPolicyFacts (env : RagEnv) (db : DB) (policyId : String) :
    Except String DB :=
  match db.findPolicy policyId with
  | none => .error "Failed to extract policy facts"
  | some policy =>
    match db.findState policy.stateId with
    | none => .error "Failed to extract policy facts"
    | some state =>
      let extractionRaw := extractionRawOutput env db state policyId
      let result : Option Json :=
        match braceSpan extractionRaw with
        | some span =>
          match env.jsonParse span with
          | .ok j => some j
          | .error _ => none
        | none => none
      let factsRows :=
        match result with
        | some j =>
          match j.get "facts" with
          | some (.arr fs) => fs.map (factToRow policy.id policy.stateId)
          | _ => []
        | none => []
      .ok { db with facts := db.facts ++ factsRows }

/-! ## The ingestion worker queue (the unnamed worker module) -/

/-- The `IngestionJob` interface of the worker module. -/
structure IngestionJob where
  policyId : String
  buffer : Option String := none
  filePath : Option String := none
  deleteFileAfter : Bool := false
  deriving Repr, DecidableEq

/-- The filesystem visible to the worker: path ↦ file contents. -/
abbrev FileSystem := List (String × String)

/-- The error Prisma's `update` raises when its `where` clause matches no
record (`PrismaClientKnownRequestError`, code P2025: "An operation failed
because it depends on one or more records that were required but not
found"). -/
inductive DbError where
  | recordNotFound (id : String)
  deriving Repr, DecidableEq

/-- `prisma.policy.update({ where: { id }, data: { status } })`: updates
the row when it exists and throws P2025 otherwise.  (`processedAt`, a
wall-clock timestamp also stamped on success, is outside the model.) -/
def DB.updatePolicyStatus (db : DB) (id : String) (status : String) :
    Except DbError DB :=
  if db.policies.any (fun p => p.id = id) then
    .ok { db with
          policies :=
            db.policies.map (fun p =>
              if p.id = id then { p with status := status } else p) }
  else
    .error (.recordNotFound id)

/-- One chunk produced by the delegated extract/chunk/embed/upsert step. -/
structure ChunkData where
  content : String
  pageNumber : Int
  chunkIndex : Int
  deriving Repr, DecidableEq

/-- The collaborators of the worker loop that live outside the provided
sources.  `processPDF` — modelled from the spec: `processAndStorePDF`
(in `lib/pdf-processor.ts`, not among the provided sources) is the
delegated step 3 "Extract+chunk+embed+upsert … produces an ordered list of
(content, pageNumber, chunkIndex)"; it may throw, and its vector-index
upserts are not tracked by the worker state.  `extractFacts` abstracts
step 5 (`extractPolicyFacts` of `rag.ts`, embedded above, is its concrete
instance once an environment is fixed): it writes fact rows on success and
writes nothing when it throws. -/
structure WorkerEnv where
  processPDF : (buffer policyId stateId stateName title : String) →
    Except String (List ChunkData)
  extractFacts : DB → String → Except String DB

/-- `resolveBuffer` (worker module, lines 110–120): an in-memory buffer
takes precedence; otherwise the file at `filePath` is read (failing if it
does not exist); otherwise the job is rejected. -/
def resolveBuffer (fs : FileSystem) (job : IngestionJob) : Except String String :=
  match job.buffer with
  | some b => .ok b
  | none =>
    match job.filePath with
    | some p =>
      match fs.lookup p with
      | some content => .ok content
      | none => .error ("ENOENT: no such file " ++ p)
    | none => .error "No buffer or file path provided for ingestion job"

/-- `fs.promises.unlink`: removes the file, failing (ENOENT) when it does
not exist. -/
def unlinkFile (fs : FileSystem) (p : String) : Except String FileSystem :=
  if fs.any (fun kv => kv.1 = p) then
    .ok (fs.filter (fun kv => kv.1 ≠ p))
  else
    .error ("ENOENT: no such file " ++ p)

/-- The `try` block of the worker loop (lines 41–88), for one job: load
the policy (throwing if absent), resolve the payload, run the delegated
extract/embed/upsert, bulk-write the chunk rows, run fact extraction, and
transition the policy to `completed`.  Returns the database as mutated so
far together with the thrown error, if any (writes made before a failing
step persist, as they do through Prisma). -/
def runJobTry (env : WorkerEnv) (db : DB) (fs : FileSystem)
    (job : IngestionJob) : DB × Option String :=
  match db.findPolicy job.policyId with
  | none => (db, some ("Policy " ++ job.policyId ++ " not found"))
  | some policy =>
    match db.findState policy.stateId with
    | none => (db, some ("State " ++ policy.stateId ++ " not found"))
    | some state =>
      match resolveBuffer fs job with
      | .error e => (db, some e)
      | .ok buffer =>
        match env.processPDF buffer job.policyId policy.stateId state.name policy.title with
        | .error e => (db, some e)
        | .ok processed =>
          let db :=
            { db with
              chunks :=
                db.chunks ++
                  processed.map (fun c =>
                    { id := job.policyId ++ ":" ++ toString c.chunkIndex
                      policyId := job.policyId
                      content := c.content
                      pageNumber := c.pageNumber
                      chunkIndex := c.chunkIndex }) }
          match env.extractFacts db job.policyId with
          | .error e => (db, some e)
          | .ok db =>
            match db.updatePolicyStatus job.policyId "completed" with
            | .error (.recordNotFound id) =>
              (db, some ("Record to update not found: " ++ id))
            | .ok db => (db, none)

/-- One iteration of the worker loop (lines 41–104): the `try` block, the
`catch` block (which transitions the policy to `failed` — and itself
throws P2025 when the policy row is absent), and the `finally` block
(which unlinks a delete-after temporary file, swallowing unlink errors).
The `Option DbError` component is the exception escaping the iteration:
only the `catch` block's status update can produce one. -/
def runJob (env : WorkerEnv) (db : DB) (fs : FileSystem)
    (job : IngestionJob) : (DB × FileSystem) × Option DbError :=
  let (db2, escape) :=
    match runJobTry env db fs job with
    | (db', none) => (db', none)
    | (db', some _) =>
      match db'.updatePolicyStatus job.policyId "failed" with
      | .ok db'' => (db'', none)
      | .error e => (db', some e)
  let fs2 :=
    if job.deleteFileAfter then
      match job.filePath with
      | some p =>
        match unlinkFile fs p with
        | .ok fs' => fs'
        | .error _ => fs
      | none => fs
    else fs
  ((db2, fs2), escape)

/-- The worker's drain loop (lines 37–105): shift a job, run its
iteration, continue; an exception escaping an iteration aborts the loop,
leaving the remaining jobs queued. -/
def processJobs (env : WorkerEnv) :
    List IngestionJob → DB → FileSystem →
    (DB × FileSystem × List IngestionJob) × Option DbError
  | [], db, fs => ((db, fs, []), none)
  | job :: rest, db, fs =>
    match runJob env db fs job with
    | ((db', fs'), none) => processJobs env rest db' fs'
    | ((db', fs'), some e) => ((db', fs', rest), some e)

/-- The full in-process worker state: the module-level `jobQueue` and
`isProcessing` flag, plus the stores the worker mutates. -/
structure WorkerState where
  jobQueue : List IngestionJob
  isProcessing : Bool
  db : DB
  fs : FileSystem
  deriving Repr, BEq

/-- `processQueue` (worker module, lines 33–108).  The returned
`Option DbError` is the rejection of the `processQueue()` promise; since
the function is invoked as `void processQueue()`, such a rejection is
unhandled — and `isProcessing = false` (line 107) is never reached, so the
flag remains `true`. -/
def processQueue (env : WorkerEnv) (st : WorkerState) :
    WorkerState × Option DbError :=
  if st.isProcessing then (st, none)
  else
    match processJobs env st.jobQueue st.db st.fs with
    | ((db', fs', remaining), none) =>
      ({ jobQueue := remaining, isProcessing := false, db := db', fs := fs' }, none)
    | ((db', fs', remaining), some e) =>
      ({ jobQueue := remaining, isProcessing := true, db := db', fs := fs' }, some e)

/-- `queuePolicyProcessing` (worker module, lines 17–31): append the job
and fire `void processQueue()`. -/
def queuePolicyProcessing (env : WorkerEnv) (st : WorkerState)
    (policyId : String) (buffer : Option String)
    (filePath : Option String := none) (deleteFileAfter : Bool := false) :
    WorkerState × Option DbError :=
  processQueue env
    { st with
      jobQueue :=
        st.jobQueue ++
          [{ policyId := policyId, buffer := buffer, filePath := filePath
             deleteFileAfter := deleteFileAfter }] }

/-! ## Classifier helpers for metadata shapes -/

/-- The candidate metadata field holds a string (the `typeof x === "string"`
test of `rag.ts` lines 58–63). -/
def isStringVal : Option JsValue → Bool
  | some (.str _) => true
  | _ => false

/-- The value is a JS number (the `typeof x === "number"` test of
`rag.ts` line 59). -/
def isNumberVal : JsValue → Bool
  | .num _ => true
  | _ => false

/-- The metadata field is missing: absent (`undefined`) or `null` — the
cases the `??` operator defaults. -/
def isMissing : Option JsValue → Bool
  | none => true
  | some .null => true
  | _ => false

/-! ## Concrete fixtures used by witnesses and counterexamples -/

/-- An environment whose collaborators are inert (zero scores, empty
generation). -/
def zeroRagEnv : RagEnv :=
  { embed := fun _ => List.replicate 768 0
    score := fun _ _ => 0
    gen := fun _ _ => ""
    jsonParse := fun _ => .error "no parser" }

/-- An environment whose index metric scores every candidate 9/10. -/
def highScoreEnv : RagEnv :=
  { zeroRagEnv with score := fun _ _ => mkRat 9 10 }

/-- An environment whose index metric scores every candidate 4/5. -/
def midScoreEnv : RagEnv :=
  { zeroRagEnv with score := fun _ _ => mkRat 4 5 }

/-- An empty index of dimension 768. -/
def emptyIndex : VectorIndex := { dimension := 768, entries := [] }

/-- An empty relational store. -/
def emptyDB : DB := { states := [], policies := [], chunks := [], facts := [] }

/-- A well-formed vector entry. -/
def goodEntry : VectorEntry :=
  { id := "c1"
    values := List.replicate 768 1
    metadata :=
      { policyId := some (.str "p1")
        stateId := some (.str "s1")
        stateName := some (.str "Texas")
        policyTitle := some (.str "TX Telehealth Policy")
        pageNumber := some (.num 2)
        chunkIndex := some (.num 0)
        content := some (.str "snippet") } }

/-- An entry whose `pageNumber` metadata is mistyped as the string "7" and
whose `stateName` is mistyped as a number. -/
def mistypedEntry : VectorEntry :=
  { id := "c2"
    values := List.replicate 768 1
    metadata :=
      { policyId := some (.str "p1")
        stateName := some (.num 3)
        pageNumber := some (.str "7")
        content := some (.str "text") } }

/-- A raw match with mistyped `stateName`, absent `policyTitle` and null
`pageNumber`. -/
def nullMatch : PineconeMatch :=
  { id := "c9"
    score := some (mkRat 3 4)
    metadata := some
      { stateName := some (.num 3)
        pageNumber := some .null
        content := some (.str "x") } }

/-- An entry whose vector has length 1 rather than 768. -/
def shortEntry : VectorEntry :=
  { id := "v1", values := [1], metadata := {} }

/-- An index holding only the well-formed entry. -/
def goodIndex : VectorIndex := { dimension := 768, entries := [goodEntry] }

/-- An index holding only the mistyped entry. -/
def mistypedIndex : VectorIndex := { dimension := 768, entries := [mistypedEntry] }

/-- An index with two entries of policy "p1" and one of policy "p2". -/
def twoPolicyIndex : VectorIndex :=
  { dimension := 768
    entries :=
      [ goodEntry
      , { goodEntry with id := "c1b" }
      , { id := "d1"
          values := List.replicate 768 1
          metadata := { policyId := some (.str "p2") } } ] }

/-- A store holding one policy "p1" of state "s1" with one chunk. -/
def oneRowDB : DB :=
  { states := [{ id := "s1", name := "Texas" }]
    policies := [{ id := "p1", stateId := "s1", title := "TX Telehealth Policy", status := "pending" }]
    chunks := [{ id := "c1", policyId := "p1", content := "full chunk content", pageNumber := 2, chunkIndex := 0 }]
    facts := [] }

/-- An environment whose generation model emits prose with no brace span. -/
def noJsonEnv : RagEnv :=
  { zeroRagEnv with gen := fun _ _ => "No structured facts were found." }

/-- A parsed fact whose confidence field is present but zero (falsy). -/
def zeroConfFact : Json :=
  .obj [("category", .str "modality"), ("field", .str "live_video"),
        ("value", .str "Allowed"), ("confidence", .num 0), ("page", .num 3)]

/-- A parsed extraction result holding the single zero-confidence fact. -/
def zeroConfResult : Json := .obj [("facts", .arr [zeroConfFact])]

/-- An environment whose generation model emits a brace span and whose
parser yields `zeroConfResult`. -/
def zeroConfEnv : RagEnv :=
  { zeroRagEnv with
    gen := fun _ _ => "\x7b\x7d"
    jsonParse := fun _ => .ok zeroConfResult }

/-- A worker environment whose delegated steps always succeed. -/
def okWorkerEnv : WorkerEnv :=
  { processPDF := fun _ _ _ _ _ => .ok [{ content := "chunk text", pageNumber := 1, chunkIndex := 0 }]
    extractFacts := fun db _ => .ok db }

/-- A job whose policy id has no `Policy` row. -/
def ghostJob : IngestionJob := { policyId := "ghost", buffer := some "pdfbytes" }

/-- A well-formed in-memory job for policy "p1". -/
def goodJob : IngestionJob := { policyId := "p1", buffer := some "pdfbytes" }

/-- The worker state for the stall scenario: a good job, then a poisoned
job, then another good job, over the one-row store. -/
def stallState : WorkerState :=
  { jobQueue := [goodJob, ghostJob, { goodJob with buffer := some "more bytes" }]
    isProcessing := false
    db := oneRowDB
    fs := [] }

/-- A file-backed delete-after job whose temporary file does not exist (so
the `finally` unlink itself fails). -/
def fileJob : IngestionJob :=
  { policyId := "p1", buffer := some "pdfbytes", filePath := some "/tmp/upload.pdf"
    deleteFileAfter := true }

/-! ## Theorems -/

/-- Helper: looking up a key removed by `filter` misses. -/
theorem lookup_filter_ne (fs : FileSystem) (p : String) :
    (fs.filter (fun kv => kv.1 ≠ p)).lookup p = none := by
  rw [List.lookup_eq_none_iff]
  intro q hq
  have hmem := List.mem_filter.1 hq
  simp only [decide_eq_true_eq] at hmem
  simpa [bne_iff_ne] using fun e => hmem.2 e.symm

/-- Helper: a key absent from a lookup list is not found. -/
theorem lookup_eq_none_of_not_any (fs : FileSystem) (p : String)
    (h : fs.any (fun kv => kv.1 = p) = false) : fs.lookup p = none := by
  simp only [List.any_eq_false, decide_eq_true_eq] at h
  rw [List.lookup_eq_none_iff]
  intro q hq
  simpa [bne_iff_ne] using fun e => h q hq e.symm

/-- C2: every result of `hybridSearch` clears the 0.7 similarity
threshold; the result list is sorted in descending order of similarity;
its length is at most `topK`; and the vector index is asked for `topK * 2`
candidates before the threshold filter is applied. -/
theorem hybridSearch_spec (env : RagEnv) (idx : VectorIndex) (query : String)
    (stateFilter : Option (List String)) (topK : Nat) :
    (∀ r ∈ hybridSearch env idx query stateFilter topK,
        SIMILARITY_THRESHOLD ≤ r.similarity) ∧
    List.Sorted bySimilarityDesc (hybridSearch env idx query stateFilter topK) ∧
    (hybridSearch env idx query stateFilter topK).length ≤ topK ∧
    hybridSearch env idx query stateFilter topK =
      hybridSearchFrom
        (queryVectors env.score idx (env.embed query) (topK * 2)
          (stateFilter.map MetadataFilter.stateNameIn)) topK := by
  refine ⟨?_, ?_, ?_, rfl⟩
  · intro r hr
    have hr' : r ∈ _ := List.take_subset _ _ hr
    rw [List.mem_insertionSort] at hr'
    obtain ⟨m, hm, rfl⟩ := List.mem_map.1 hr'
    obtain ⟨-, hpred⟩ := List.mem_filter.1 hm
    rw [Bool.and_eq_true, decide_eq_true_eq] at hpred
    exact hpred.2
  · exact List.Pairwise.sublist (List.take_sublist _ _)
      (List.sorted_insertionSort _ _)
  · exact List.length_take_le _ _

/-- C3: when the underlying search returns no results, `ragQuery` returns
the canned no-information response — confidence exactly 0, no citations,
suggested follow-up queries — without invoking the text-generation
collaborator. -/
theorem ragQuery_no_hits (env : RagEnv) (idx : VectorIndex) (db : DB)
    (query : String) (stateFilter : Option (List String))
    (history : List ChatMessage)
    (h : hybridSearch env idx query stateFilter = []) :
    ragQuery env idx db query stateFilter history = (noInformationResponse, false) ∧
    noInformationResponse.confidence = 0 ∧
    noInformationResponse.citations = [] ∧
    noInformationResponse.answer =
      "I couldn\x27t find relevant information to answer your question. Try rephrasing or asking about specific telehealth modalities, billing codes, or state requirements." ∧
    noInformationResponse.suggestedQueries =
      some [ "What are the live video requirements?"
           , "Does this state allow store-and-forward?"
           , "What are the consent requirements?" ] := by
  refine ⟨?_, rfl, rfl, rfl, rfl⟩
  simp [ragQuery, h]

/-- C3 witness: a concrete environment over the empty index. -/
theorem ragQuery_no_hits_witness :
    hybridSearch zeroRagEnv emptyIndex "q" none = [] ∧
    ragQuery zeroRagEnv emptyIndex emptyDB "q" none [] =
      (noInformationResponse, false) :=
  ⟨by decide,
   (ragQuery_no_hits zeroRagEnv emptyIndex emptyDB "q" none [] (by decide)).1⟩

/-- C4: on a non-empty retained result set, the returned confidence is
exactly `min(average similarity × 1.2, 1.0)`, hence never exceeds 1. -/
theorem ragQuery_confidence (env : RagEnv) (idx : VectorIndex) (db : DB)
    (query : String) (stateFilter : Option (List String))
    (history : List ChatMessage)
    (h : hybridSearch env idx query stateFilter ≠ []) :
    (ragQuery env idx db query stateFilter history).1.confidence =
      min ((((hybridSearch env idx query stateFilter).map
          SearchResult.similarity).sum /
        ((hybridSearch env idx query stateFilter).length : ℚ)) * (mkRat 6 5)) 1 ∧
    (ragQuery env idx db query stateFilter history).1.confidence ≤ 1 := by
  have hne : (hybridSearch env idx query stateFilter).isEmpty = false := by
    cases hs : hybridSearch env idx query stateFilter with
    | nil => exact absurd hs h
    | cons a l => rfl
  have hfold : ∀ l : List SearchResult,
      l.foldl (fun sum r => sum + r.similarity) 0 =
        (l.map SearchResult.similarity).sum := by
    intro l
    rw [List.sum_eq_foldl, List.foldl_map]
  constructor
  · simp only [ragQuery, hne, Bool.false_eq_true, if_false, hfold]
  · simp only [ragQuery, hne, Bool.false_eq_true, if_false]
    exact min_le_right _ _

/-- C4 witness: a single retained result of similarity 9/10; the raw
rescaled value 27/25 exceeds 1 and is clamped to exactly 1. -/
theorem ragQuery_confidence_witness :
    hybridSearch highScoreEnv goodIndex "q" none ≠ [] ∧
    ((ragQuery highScoreEnv goodIndex oneRowDB "q" none []).1.confidence =
      min ((((hybridSearch highScoreEnv goodIndex "q" none).map
          SearchResult.similarity).sum /
        ((hybridSearch highScoreEnv goodIndex "q" none).length : ℚ)) * (mkRat 6 5)) 1 ∧
     (ragQuery highScoreEnv goodIndex oneRowDB "q" none []).1.confidence ≤ 1) :=
  ⟨by decide,
   ragQuery_confidence highScoreEnv goodIndex oneRowDB "q" none [] (by decide)⟩

/-- C5 counterexample: a candidate surviving the threshold whose
`pageNumber` metadata is the (mistyped) string "7" is returned with page
number 7, not the claimed safe default 1. -/
theorem hybridSearch_mistyped_page_counterexample :
    mistypedEntry.metadata.pageNumber = some (.str "7") ∧
    isNumberVal (.str "7") = false ∧
    hybridSearch midScoreEnv mistypedIndex "q" none =
      [{ chunkId := "c2", content := "text", pageNumber := some 7
         similarity := mkRat 4 5, policyId := "p1", stateName := "Unknown"
         policyTitle := "Unknown Policy" }] ∧
    (some (7 : Int)) ≠ some 1 := by
  refine ⟨rfl, rfl, by decide, by decide⟩

/-- C5 (amended): for every candidate surviving the similarity threshold,
a missing or non-string `stateName` yields "Unknown" and a missing or
non-string `policyTitle` yields "Unknown Policy"; a *missing* (absent or
null) `pageNumber` yields 1, while a present mistyped `pageNumber` is
coerced with JavaScript Number conversion instead of defaulting. -/
theorem toSearchResult_defaults (m : PineconeMatch) :
    (isStringVal (m.metadata.getD {}).stateName = false →
      (toSearchResult m).stateName = "Unknown") ∧
    (isStringVal (m.metadata.getD {}).policyTitle = false →
      (toSearchResult m).policyTitle = "Unknown Policy") ∧
    (isMissing (m.metadata.getD {}).pageNumber = true →
      (toSearchResult m).pageNumber = some 1) ∧
    (∀ v, (m.metadata.getD {}).pageNumber = some v → isNumberVal v = false →
      v ≠ .null → (toSearchResult m).pageNumber = jsNumber v) := by
  refine ⟨?_, ?_, ?_, ?_⟩
  · intro h
    show (match (m.metadata.getD {}).stateName with
          | some (.str s) => s
          | _ => "Unknown") = "Unknown"
    cases hm : (m.metadata.getD {}).stateName with
    | none => rfl
    | some v =>
      cases v with
      | str s => rw [hm] at h; simp [isStringVal] at h
      | num n => rfl
      | bool b => rfl
      | null => rfl
  · intro h
    show (match (m.metadata.getD {}).policyTitle with
          | some (.str s) => s
          | _ => "Unknown Policy") = "Unknown Policy"
    cases hm : (m.metadata.getD {}).policyTitle with
    | none => rfl
    | some v =>
      cases v with
      | str s => rw [hm] at h; simp [isStringVal] at h
      | num n => rfl
      | bool b => rfl
      | null => rfl
  · intro h
    show (match (m.metadata.getD {}).pageNumber with
          | some (.num n) => some n
          | v => jsNumber (nullCoalesce v (.num 1))) = some 1
    cases hm : (m.metadata.getD {}).pageNumber with
    | none => rfl
    | some v =>
      cases v with
      | null => rfl
      | num n => rw [hm] at h; simp [isMissing] at h
      | str s => rw [hm] at h; simp [isMissing] at h
      | bool b => rw [hm] at h; simp [isMissing] at h
  · intro v hv hnum hnull
    show (match (m.metadata.getD {}).pageNumber with
          | some (.num n) => some n
          | w => jsNumber (nullCoalesce w (.num 1))) = jsNumber v
    rw [hv]
    cases v with
    | num n => simp [isNumberVal] at hnum
    | null => exact absurd rfl hnull
    | str s => rfl
    | bool b => rfl

/-- C5 (amended) witness: a match with mistyped `stateName`, missing
`policyTitle` and null `pageNumber` normalizes to the safe defaults. -/
theorem toSearchResult_defaults_witness :
    (isStringVal (nullMatch.metadata.getD {}).stateName = false ∧
     isStringVal (nullMatch.metadata.getD {}).policyTitle = false ∧
     isMissing (nullMatch.metadata.getD {}).pageNumber = true) ∧
    ((toSearchResult nullMatch).stateName = "Unknown" ∧
     (toSearchResult nullMatch).policyTitle = "Unknown Policy" ∧
     (toSearchResult nullMatch).pageNumber = some 1) :=
  ⟨⟨by decide, by decide, by decide⟩,
   ⟨(toSearchResult_defaults nullMatch).1 (by decide),
    (toSearchResult_defaults nullMatch).2.1 (by decide),
    (toSearchResult_defaults nullMatch).2.2.1 (by decide)⟩⟩

/-- C6: any upsert containing an entry whose vector length differs from
the fixed 768 dimensionality is rejected with a dimension-mismatch error
raised to the caller. -/
theorem upsertVectors_dimension_mismatch (idx : VectorIndex)
    (vectors : List VectorEntry) (v : VectorEntry)
    (hdim : idx.dimension = VECTOR_DIMENSIONS)
    (hv : v ∈ vectors) (hlen : v.values.length ≠ VECTOR_DIMENSIONS) :
    upsertVectors idx vectors = .error .dimensionMismatch := by
  have hall : vectors.all (fun w => w.values.length = idx.dimension) = false := by
    cases hb : vectors.all (fun w => w.values.length = idx.dimension) with
    | false => rfl
    | true =>
      exfalso
      have hmem := List.all_eq_true.1 hb v hv
      rw [decide_eq_true_eq] at hmem
      exact hlen (hdim ▸ hmem)
  simp [upsertVectors, indexUpsert, hall]

/-- C6 witness: upserting a length-1 vector into the 768-dimension index
fails with the dimension-mismatch error. -/
theorem upsertVectors_dimension_mismatch_witness :
    (emptyIndex.dimension = VECTOR_DIMENSIONS ∧ shortEntry ∈ [shortEntry] ∧
      shortEntry.values.length ≠ VECTOR_DIMENSIONS) ∧
    upsertVectors emptyIndex [shortEntry] = .error .dimensionMismatch :=
  ⟨⟨by decide, by decide, by decide⟩,
   upsertVectors_dimension_mismatch emptyIndex [shortEntry] shortEntry
     (by decide) (by decide) (by decide)⟩

/-- C9: when the raw model output contains no brace span, or the extracted
span fails to parse, `extractPolicyFacts` persists zero `PolicyFact` rows
and returns without raising: the store is returned unchanged. -/
theorem extractPolicyFacts_no_parse (env : RagEnv) (db : DB)
    (policyId : String) (policy : PolicyRow) (state : StateRow)
    (hp : db.findPolicy policyId = some policy)
    (hs : db.findState policy.stateId = some state)
    (hraw : braceSpan (extractionRawOutput env db state policyId) = none ∨
      ∃ span e, braceSpan (extractionRawOutput env db state policyId) = some span ∧
        env.jsonParse span = .error e) :
    extractPolicyFacts env db policyId = .ok db := by
  unfold extractPolicyFacts
  simp only [hp]
  simp only [hs]
  rcases hraw with hnone | ⟨span, e, hspan, herr⟩
  · simp [hnone]
  · simp [hspan, herr]

/-- C9 witness: a generation output with no brace span over the one-row
store yields the unchanged store. -/
theorem extractPolicyFacts_no_parse_witness :
    (oneRowDB.findPolicy "p1" =
        some { id := "p1", stateId := "s1", title := "TX Telehealth Policy", status := "pending" } ∧
      oneRowDB.findState "s1" = some { id := "s1", name := "Texas" } ∧
      braceSpan (extractionRawOutput noJsonEnv oneRowDB { id := "s1", name := "Texas" } "p1") = none) ∧
    extractPolicyFacts noJsonEnv oneRowDB "p1" = .ok oneRowDB :=
  ⟨⟨by decide, by decide, by decide⟩,
   extractPolicyFacts_no_parse noJsonEnv oneRowDB "p1"
     { id := "p1", stateId := "s1", title := "TX Telehealth Policy", status := "pending" }
     { id := "s1", name := "Texas" }
     (by decide) (by decide) (.inl (by decide))⟩

/-- C10: every successfully parsed fact is persisted through `factToRow`,
and a present-but-falsy confidence (0, null, empty string, …) is stored as
0.5, exactly as an omitted one is. -/
theorem extractPolicyFacts_falsy_confidence (env : RagEnv) (db : DB)
    (policyId : String) (policy : PolicyRow) (state : StateRow) (j : Json)
    (facts : List Json) (span : String)
    (hp : db.findPolicy policyId = some policy)
    (hs : db.findState policy.stateId = some state)
    (hspan : braceSpan (extractionRawOutput env db state policyId) = some span)
    (hparse : env.jsonParse span = .ok j)
    (hfacts : j.get "facts" = some (.arr facts)) :
    extractPolicyFacts env db policyId =
      .ok { db with
            facts := db.facts ++ facts.map (factToRow policy.id policy.stateId) } ∧
    ∀ fact ∈ facts, ∀ cv, fact.get "confidence" = some cv → cv.truthy = false →
      (factToRow policy.id policy.stateId fact).confidence = .num (mkRat 1 2) := by
  constructor
  · unfold extractPolicyFacts
    simp only [hp]
    simp only [hs]
    simp [hspan, hparse, hfacts]
  · intro fact _ cv hcv htruthy
    show (match fact.get "confidence" with
          | some v => if v.truthy then v else .num (mkRat 1 2)
          | none => .num (mkRat 1 2)) = Json.num (mkRat 1 2)
    rw [hcv]
    simp [htruthy]

/-- C10 witness: a parsed fact with confidence 0 is stored with confidence
0.5. -/
theorem extractPolicyFacts_falsy_confidence_witness :
    (oneRowDB.findPolicy "p1" =
        some { id := "p1", stateId := "s1", title := "TX Telehealth Policy", status := "pending" } ∧
      braceSpan (extractionRawOutput zeroConfEnv oneRowDB { id := "s1", name := "Texas" } "p1") =
        some "\x7b\x7d" ∧
      zeroConfEnv.jsonParse "\x7b\x7d" = .ok zeroConfResult ∧
      zeroConfResult.get "facts" = some (.arr [zeroConfFact]) ∧
      zeroConfFact.get "confidence" = some (.num 0) ∧
      (Json.num 0).truthy = false) ∧
    (extractPolicyFacts zeroConfEnv oneRowDB "p1" =
        .ok { oneRowDB with
              facts := oneRowDB.facts ++ [zeroConfFact].map (factToRow "p1" "s1") } ∧
      (factToRow "p1" "s1" zeroConfFact).confidence = .num (mkRat 1 2)) :=
  have h := extractPolicyFacts_falsy_confidence zeroConfEnv oneRowDB "p1"
    { id := "p1", stateId := "s1", title := "TX Telehealth Policy", status := "pending" }
    { id := "s1", name := "Texas" } zeroConfResult [zeroConfFact] "\x7b\x7d"
    (by decide) (by decide) (by decide) rfl rfl
  ⟨⟨by decide, by decide, rfl, rfl, rfl, rfl⟩,
   ⟨h.1, h.2 zeroConfFact (List.mem_singleton.2 rfl) (.num 0) rfl rfl⟩⟩

/-- Helper for C7: after `deletePolicyVectors`, assuming the enumeration
ceiling was not exceeded, no surviving entry matches the policy filter. -/
theorem deletePolicyVectors_no_match (score : List ℚ → List ℚ → ℚ)
    (idx : VectorIndex) (pid : String)
    (hcount : (idx.entries.filter
        (fun e => matchesFilter (some (.policyIdEq pid)) e.metadata)).length ≤ 10000)
    (e : VectorEntry) (he : e ∈ (deletePolicyVectors score idx pid).1.entries) :
    matchesFilter (some (.policyIdEq pid)) e.metadata = false := by
  have hqr : indexQuery score idx (List.replicate 768 0) 10000 false
      (some (.policyIdEq pid)) =
      ((idx.entries.filter
          (fun e => matchesFilter (some (.policyIdEq pid)) e.metadata)).map
        (fun e =>
          { id := e.id
            score := some (score (List.replicate 768 0) e.values)
            metadata := none })).insertionSort
        matchByScoreDesc := by
    unfold indexQuery
    refine List.take_of_length_le ?_
    rw [List.length_insertionSort, List.length_map]
    exact hcount
  unfold deletePolicyVectors at he
  simp only [] at he
  rw [hqr] at he
  by_cases hq :
      (((idx.entries.filter
          (fun e => matchesFilter (some (.policyIdEq pid)) e.metadata)).map
        (fun e =>
          { id := e.id
            score := some (score (List.replicate 768 0) e.values)
            metadata := none })).insertionSort
        matchByScoreDesc).length > 0
  · rw [if_pos hq] at he
    unfold indexDeleteMany at he
    obtain ⟨hmem, hnotin⟩ := List.mem_filter.1 he
    cases hP : matchesFilter (some (.policyIdEq pid)) e.metadata with
    | false => rfl
    | true =>
      exfalso
      have hin : e ∈ idx.entries.filter
          (fun e => matchesFilter (some (.policyIdEq pid)) e.metadata) :=
        List.mem_filter.2 ⟨hmem, hP⟩
      have hsorted : ({ id := e.id,
                        score := some (score (List.replicate 768 0) e.values),
                        metadata := none } : PineconeMatch) ∈
          ((idx.entries.filter
              (fun e => matchesFilter (some (.policyIdEq pid)) e.metadata)).map
            (fun e =>
              { id := e.id
                score := some (score (List.replicate 768 0) e.values)
                metadata := none })).insertionSort matchByScoreDesc :=
        (List.mem_insertionSort _).2 (List.mem_map_of_mem _ hin)
      have hid : e.id ∈ (((idx.entries.filter
          (fun e => matchesFilter (some (.policyIdEq pid)) e.metadata)).map
            (fun e =>
              { id := e.id
                score := some (score (List.replicate 768 0) e.values)
                metadata := none })).insertionSort matchByScoreDesc).map
            (fun m => m.id) :=
        List.mem_map_of_mem _ hsorted
      rw [← List.elem_iff] at hid
      simp only [decide_eq_true_eq] at hnotin
      exact hnotin hid
  · rw [if_neg hq] at he
    have hlen : ((idx.entries.filter
        (fun e => matchesFilter (some (.policyIdEq pid)) e.metadata)).map
        (fun e =>
          ({ id := e.id,
             score := some (score (List.replicate 768 0) e.values),
             metadata := none } : PineconeMatch))).length = 0 := by
      have := Nat.eq_zero_of_not_pos hq
      rwa [List.length_insertionSort] at this
    rw [List.length_map, List.length_eq_zero] at hlen
    cases hP : matchesFilter (some (.policyIdEq pid)) e.metadata with
    | false => rfl
    | true =>
      exfalso
      have hin : e ∈ idx.entries.filter
          (fun e => matchesFilter (some (.policyIdEq pid)) e.metadata) :=
        List.mem_filter.2 ⟨he, hP⟩
      rw [hlen] at hin
      exact List.not_mem_nil e hin

/-- C7: `deletePolicyVectors` enumerates the policy's entries with a
filter-only zero-vector query capped at 10000 and deletes the enumerated
ids; provided the policy's true entry count does not exceed the cap, any
subsequent query with the same policy filter returns no candidates. -/
theorem deletePolicyVectors_spec (score scoreQ : List ℚ → List ℚ → ℚ)
    (idx : VectorIndex) (pid : String)
    (hcount : (idx.entries.filter
        (fun e => matchesFilter (some (.policyIdEq pid)) e.metadata)).length ≤ 10000) :
    deletePolicyVectors score idx pid =
      (let queryResult := indexQuery score idx (List.replicate 768 0) 10000 false
          (some (.policyIdEq pid))
       if queryResult.length > 0 then
         (indexDeleteMany idx (queryResult.map (fun m => m.id)), queryResult.length)
       else (idx, 0)) ∧
    ∀ (vec : List ℚ) (topK : Nat) (includeMeta : Bool),
      indexQuery scoreQ (deletePolicyVectors score idx pid).1 vec topK includeMeta
        (some (.policyIdEq pid)) = [] := by
  refine ⟨rfl, ?_⟩
  intro vec topK includeMeta
  have hnil : (deletePolicyVectors score idx pid).1.entries.filter
      (fun e => matchesFilter (some (.policyIdEq pid)) e.metadata) = [] := by
    rw [List.filter_eq_nil_iff]
    intro e he
    simp only [Bool.not_eq_true]
    exact deletePolicyVectors_no_match score idx pid hcount e he
  unfold indexQuery
  rw [hnil]
  simp

/-- C7 witness: over an index with two "p1" entries and one "p2" entry,
deleting "p1" leaves a subsequent "p1"-filtered query empty. -/
theorem deletePolicyVectors_spec_witness :
    ((twoPolicyIndex.entries.filter
        (fun e => matchesFilter (some (.policyIdEq "p1")) e.metadata)).length ≤ 10000) ∧
    indexQuery zeroRagEnv.score
      (deletePolicyVectors zeroRagEnv.score twoPolicyIndex "p1").1
      (List.replicate 768 1) 5 true (some (.policyIdEq "p1")) = [] :=
  ⟨by decide,
   (deletePolicyVectors_spec zeroRagEnv.score zeroRagEnv.score twoPolicyIndex "p1"
       (by decide)).2 (List.replicate 768 1) 5 true⟩

/-- C1 (divergence exhibited): over a queue holding a good job, a job whose
policy id has no `Policy` row, and one further good job, the worker
completes the first job, but the poisoned job's `catch`-block status update
itself throws P2025; the rejection escapes `processQueue` (invoked as
`void processQueue()`, so it is unhandled) before `isProcessing` is reset,
leaving the flag stuck at `true` with the third job still queued — the
queue stalls instead of proceeding to the next job as claimed. -/
theorem processQueue_stalls_on_missing_policy :
    (processQueue okWorkerEnv stallState).2 =
      some (.recordNotFound "ghost") ∧
    (processQueue okWorkerEnv stallState).1.isProcessing = true ∧
    (processQueue okWorkerEnv stallState).1.jobQueue =
      [{ goodJob with buffer := some "more bytes" }] ∧
    ((processQueue okWorkerEnv stallState).1.db.findPolicy "p1").map
      (fun p => p.status) = some "completed" := by
  refine ⟨by decide, by decide, by decide, by decide⟩

/-- C8: for a file-backed delete-after job, one worker iteration leaves the
temporary file absent regardless of the job's success or failure (the
unlink sits in the `finally` block), and the exception escaping the
iteration — if any — is exactly the one produced by the `catch` block's
failed-status update: a failing unlink is swallowed and never propagates. -/
theorem runJob_temp_file_cleanup (env : WorkerEnv) (db : DB)
    (fs : FileSystem) (job : IngestionJob) (p : String)
    (hflag : job.deleteFileAfter = true) (hpath : job.filePath = some p) :
    ((runJob env db fs job).1.2).lookup p = none ∧
    (runJob env db fs job).2 =
      (match runJobTry env db fs job with
       | (_, none) => none
       | (db', some _) =>
         match db'.updatePolicyStatus job.policyId "failed" with
         | .ok _ => none
         | .error e => some e) := by
  have hfs : (runJob env db fs job).1.2 =
      (if job.deleteFileAfter then
        match job.filePath with
        | some q =>
          match unlinkFile fs q with
          | .ok fs' => fs'
          | .error _ => fs
        | none => fs
      else fs) := by
    unfold runJob
    rcases htry : runJobTry env db fs job with ⟨db', esc⟩
    cases esc with
    | none => rfl
    | some m =>
      cases hupd : db'.updatePolicyStatus job.policyId "failed" with
      | ok d => rfl
      | error e => rfl
  constructor
  · rw [hfs, hflag, hpath]
    show (match unlinkFile fs p with
          | .ok fs' => fs'
          | .error _ => fs).lookup p = none
    cases hany : fs.any (fun kv => kv.1 = p) with
    | true =>
      have hu : unlinkFile fs p = .ok (fs.filter (fun kv => kv.1 ≠ p)) := by
        simp [unlinkFile, hany]
      rw [hu]
      exact lookup_filter_ne fs p
    | false =>
      have hu : unlinkFile fs p = .error ("ENOENT: no such file " ++ p) := by
        simp [unlinkFile, hany]
      rw [hu]
      exact lookup_eq_none_of_not_any fs p hany
  · unfold runJob
    rcases htry : runJobTry env db fs job with ⟨db', esc⟩
    cases esc with
    | none => rfl
    | some m =>
      cases hupd : db'.updatePolicyStatus job.policyId "failed" with
      | ok d => simp [hupd]
      | error e => simp [hupd]

/-- C8 witness: a file-backed delete-after job whose temporary file is
already absent — the unlink itself fails (ENOENT), is swallowed, and the
iteration escapes nothing. -/
theorem runJob_temp_file_cleanup_witness :
    (fileJob.deleteFileAfter = true ∧ fileJob.filePath = some "/tmp/upload.pdf") ∧
    (((runJob okWorkerEnv oneRowDB [] fileJob).1.2).lookup "/tmp/upload.pdf" = none ∧
     (runJob okWorkerEnv oneRowDB [] fileJob).2 =
      (match runJobTry okWorkerEnv oneRowDB [] fileJob with
       | (_, none) => none
       | (db', some _) =>
         match db'.updatePolicyStatus fileJob.policyId "failed" with
         | .ok _ => none
         | .error e => some e)) :=
  ⟨⟨rfl, rfl⟩,
   runJob_temp_file_cleanup okWorkerEnv oneRowDB [] fileJob "/tmp/upload.pdf" rfl rfl⟩

end TeleCompass
